import Mathlib

/-!
Shallow embedding of the tollgate-module-basic-go core: the valve package
(gate controller with timed expiry and tc-based bandwidth limiting) and the
merchant package (session store, allotment calculation, tier classification,
payment pipeline, payout scheduler arithmetic).

External OS commands (ndsctl, tc) and wallet / signing collaborators are
modelled as oracles; the commands a function issues are collected in a trace.
Machine integers (Go uint64) are modelled as Nat with explicit reduction
modulo 2 ^ 64 where overflow matters.
-/

namespace Tollgate

/-- Reduction modulo 2 ^ 64: models Go uint64 wrap-around arithmetic. -/
def u64Mod (n : Nat) : Nat := n % 2 ^ 64

/-- Wrap-around subtraction on uint64 values (both arguments below 2 ^ 64):
models Go `a - b` on uint64. -/
def u64Sub (a b : Nat) : Nat := (2 ^ 64 + a - b) % 2 ^ 64

/-- Conversion of a uint64 value (below 2 ^ 64) to int64, as Go `int64(x)`:
values at or above 2 ^ 63 wrap to negatives. -/
def toInt64 (n : Nat) : Int := ((n : Int) + 2 ^ 63) % 2 ^ 64 - 2 ^ 63

namespace valve

/-- Models valve.go `bandwidthLimits`: kbps ceiling per tier, 0 = unlimited;
`none` models a tier key absent from the Go map. -/
def bandwidthLimits (tier : String) : Option Nat :=
  if tier = "free" then some 2048
  else if tier = "premium" then some 0
  else if tier = "staff" then some 0
  else none

/-- Value of a hex digit character, as accepted by Go strconv.ParseInt base 16. -/
def hexDigitVal (c : Char) : Option Nat :=
  if '0' ≤ c ∧ c ≤ '9' then some (c.toNat - '0'.toNat)
  else if 'a' ≤ c ∧ c ≤ 'f' then some (c.toNat - 'a'.toNat + 10)
  else if 'A' ≤ c ∧ c ≤ 'F' then some (c.toNat - 'A'.toNat + 10)
  else none

/-- Parse a nonempty string of hex digits into a Nat (none on empty input or a
non-hex character). -/
def parseHexNat (cs : List Char) : Option Nat :=
  if cs.isEmpty then none
  else
    cs.foldl
      (fun acc c =>
        match acc, hexDigitVal c with
        | some n, some d => some (16 * n + d)
        | _, _ => none)
      (some 0)

/-- Models Go `strconv.ParseInt(s, 16, 64)`: optional sign, then nonempty hex
digits, result required to fit in int64. -/
def goParseIntHex64 (cs : List Char) : Option Int :=
  let signDigits : Int × List Char :=
    match cs with
    | '-' :: rest => (-1, rest)
    | '+' :: rest => (1, rest)
    | _ => (1, cs)
  match parseHexNat signDigits.2 with
  | none => none
  | some n =>
    let v : Int := signDigits.1 * n
    if -(2 ^ 63) ≤ v ∧ v ≤ 2 ^ 63 - 1 then some v else none

/-- Models Go `strings.Split` with a one-character separator, on the character
list of the string (structural recursion, so it computes definitionally). -/
def splitOnChar (sep : Char) : List Char → List (List Char)
  | [] => [[]]
  | c :: rest =>
    if c = sep then [] :: splitOnChar sep rest
    else
      match splitOnChar sep rest with
      | [] => [[c]]
      | g :: gs => (c :: g) :: gs

/-- Models valve.go `getClassID`: the tc class minor id derived from the last
colon-separated byte of the MAC address, clamped up to 2, with "2" as the
fallback on parse failure or malformed addresses. -/
def getClassID (macAddress : String) : String :=
  let parts := splitOnChar ':' macAddress.toList
  if 2 ≤ parts.length then
    let minor := parts.getLastD []
    match goParseIntHex64 minor with
    | some val => toString (if val < 2 then (2 : Int) else val)
    | none => "2"
  else "2"

/-- External commands issued by the valve package (ndsctl / tc invocations). -/
inductive Cmd where
  | ndsctlAuth (mac : String)
  | ndsctlDeauth (mac : String)
  | tcClassAdd (classid : String) (ratekbit : Nat)
  | tcFilterAdd (mac : String) (classid : String)
  | tcFilterDel (mac : String) (classid : String)
  | tcClassDel (classid : String)
deriving Repr, DecidableEq

/-- Whether a command is a tc (bandwidth-shaping) command. -/
def Cmd.isTc : Cmd → Bool
  | .ndsctlAuth _ => false
  | .ndsctlDeauth _ => false
  | _ => true

/-- Oracle for the external ndsctl daemon: `none` means the call succeeds,
`some e` that it fails with error text `e`. Failures of the tc commands are
logged and ignored by the Go code (they never change control flow or state),
so they need no oracle. -/
structure World where
  authErr : String → Option String
  deauthErr : String → Option String

/-- Models valve.go `removeBandwidthLimit`: deletes the tc filter and class
for the MAC (both best-effort, errors ignored); always returns nil. -/
def removeBandwidthLimit (macAddress : String) : List Cmd × Option String :=
  ([.tcFilterDel macAddress (getClassID macAddress),
    .tcClassDel (getClassID macAddress)], none)

/-- Models valve.go `setBandwidthLimit`: unknown tier is an error; ceiling 0
delegates to removal; otherwise a tc class and filter are added (failures of
the tc commands are logged only). -/
def setBandwidthLimit (macAddress tier : String) : List Cmd × Option String :=
  match bandwidthLimits tier with
  | none => ([], some ("unknown tier: " ++ tier))
  | some limit =>
    if limit = 0 then removeBandwidthLimit macAddress
    else
      ([.tcClassAdd (getClassID macAddress) limit,
        .tcFilterAdd macAddress (getClassID macAddress)], none)

/-- Models valve.go `authorizeMAC`: issues ndsctl auth; on success applies the
bandwidth limit for the tier, whose own error is logged but not raised. -/
def authorizeMAC (w : World) (macAddress tier : String) : List Cmd × Option String :=
  match w.authErr macAddress with
  | some e => ([.ndsctlAuth macAddress], some e)
  | none => (.ndsctlAuth macAddress :: (setBandwidthLimit macAddress tier).1, none)

/-- Models valve.go `deauthorizeMAC`: issues ndsctl deauth; on failure returns
the error immediately (no bandwidth-limit removal); on success removes the
bandwidth limit. -/
def deauthorizeMAC (w : World) (macAddress : String) : List Cmd × Option String :=
  match w.deauthErr macAddress with
  | some e => ([.ndsctlDeauth macAddress], some e)
  | none => (.ndsctlDeauth macAddress :: (removeBandwidthLimit macAddress).1, none)

/-- The openGates map: MAC address to the timestamp its live timer fires at. -/
def GateStore := String → Option Int

/-- Models valve.go `OpenGateUntil`: past deadlines fail up front; a MAC with
no entry is authorized externally (error aborts, no timer); a MAC with an
entry has its timer stopped and replaced without re-authorization. Returns
the new gate store, the issued commands, and the error if any. -/
def OpenGateUntil (w : World) (gates : GateStore) (now : Int)
    (macAddress : String) (untilTimestamp : Int) (tier : String) :
    GateStore × List Cmd × Option String :=
  let durationSeconds := untilTimestamp - now
  if durationSeconds ≤ 0 then
    (gates, [],
      some ("timestamp " ++ toString untilTimestamp ++
        " is in the past (current time: " ++ toString now ++ ")"))
  else
    match gates macAddress with
    | none =>
      match authorizeMAC w macAddress tier with
      | (cmds, some e) => (gates, cmds, some ("error authorizing MAC: " ++ e))
      | (cmds, none) =>
        (fun k => if k = macAddress then some untilTimestamp else gates k, cmds, none)
    | some _ =>
      (fun k => if k = macAddress then some untilTimestamp else gates k, [], none)

/-- Models the timer callback installed by `OpenGateUntil` (the time.AfterFunc
closure): deauthorize the MAC (errors logged only), then delete its entry
from openGates under the lock. -/
def gateTimerFired (w : World) (gates : GateStore) (macAddress : String) :
    GateStore × List Cmd × Option String :=
  let dres := deauthorizeMAC w macAddress
  (fun k => if k = macAddress then none else gates k, dres.1, dres.2)

end valve

namespace Merchant

/-- Models merchant CustomerSession: one per MAC address. Allotment is a Go
uint64, kept below 2 ^ 64 by every update. -/
structure CustomerSession where
  MacAddress : String
  StartTime : Int
  Metric : String
  Allotment : Nat
deriving Repr, DecidableEq

/-- The customerSessions map of the Merchant. -/
def SessionStore := String → Option CustomerSession

/-- Models Merchant.GetSession: lookup under the read lock, error when the MAC
has no session. -/
def GetSession (store : SessionStore) (macAddress : String) :
    Except String CustomerSession :=
  match store macAddress with
  | some session => .ok session
  | none => .error ("session not found for MAC address: " ++ macAddress)

/-- Models Merchant.AddAllotment: under the store lock, create the session
(start time = now, allotment = amount) when absent, otherwise add the amount
(uint64 wrap) and reset the start time to now. Returns the new store, the
returned session pointer, and the returned error (always nil in the code). -/
def AddAllotment (store : SessionStore) (now : Int) (macAddress metric : String)
    (amount : Nat) : SessionStore × CustomerSession × Option String :=
  match store macAddress with
  | none =>
    let session : CustomerSession :=
      { MacAddress := macAddress, StartTime := now, Metric := metric,
        Allotment := u64Mod amount }
    (fun k => if k = macAddress then some session else store k, session, none)
  | some session =>
    let session' : CustomerSession :=
      { session with Allotment := u64Mod (session.Allotment + amount), StartTime := now }
    (fun k => if k = macAddress then some session' else store k, session', none)

/-- Models merchant determineTier: 0 is free, 10 sats or more is premium,
anything in between is free. -/
def determineTier (amount : Nat) : String :=
  if amount = 0 then "free"
  else if 10 ≤ amount then "premium"
  else "free"

/-- Mint configuration consumed by the merchant (config_manager.MintConfig
fields used by the core). -/
structure MintConfig where
  URL : String
  PricePerStep : Nat
  MinPurchaseSteps : Nat
  MinBalance : Nat
  MinPayoutAmount : Nat
  BalanceTolerancePercent : Nat
  PriceUnit : String
deriving Repr, DecidableEq

/-- A configured profit-share entry; the Go Factor is a float64, modelled as a
rational. -/
structure ProfitShare where
  Factor : ℚ
  Identity : String
deriving Repr, DecidableEq

/-- The main configuration fields the core reads. -/
structure Config where
  AcceptedMints : List MintConfig
  Metric : String
  StepSize : Nat
  ProfitShare : List ProfitShare
deriving Repr

/-- The mint lookup loop at the start of calculateAllotment: first accepted
mint whose URL matches. -/
def findMint (mints : List MintConfig) (mintURL : String) : Option MintConfig :=
  mints.find? (fun mint => mint.URL == mintURL)

/-- Structured form of the three fmt.Errorf failures of calculateAllotment;
`render` below recovers the exact Go error strings. -/
inductive CalcErr where
  | mintNotFound (mintURL : String)
  | insufficientPayment (steps minSteps : Nat)
  | unsupportedMetric (metric : String)
deriving Repr, DecidableEq

/-- The Go error strings produced by calculateAllotment. -/
def CalcErr.render : CalcErr → String
  | .mintNotFound url => "mint configuration not found for URL: " ++ url
  | .insufficientPayment steps minSteps =>
    "payment only covers " ++ toString steps ++
      " steps, but minimum purchase is " ++ toString minSteps ++ " steps"
  | .unsupportedMetric metric => "unsupported metric: " ++ metric

/-- Models Merchant.calculateAllotmentMs: steps times the configured step size
(uint64 multiplication). -/
def calculateAllotmentMs (cfg : Config) (steps : Nat) (_mintConfig : MintConfig) :
    Except CalcErr Nat :=
  .ok (u64Mod (steps * cfg.StepSize))

/-- Models Merchant.calculateAllotment: find the mint, compute
steps = amountSats / PricePerStep (uint64 truncating division; Go panics when
PricePerStep is 0, so theorems assume it positive), fail below
MinPurchaseSteps, then dispatch on the configured metric with only
"milliseconds" supported. -/
def calculateAllotment (cfg : Config) (amountSats : Nat) (mintURL : String) :
    Except CalcErr Nat :=
  match findMint cfg.AcceptedMints mintURL with
  | none => .error (.mintNotFound mintURL)
  | some mintConfig =>
    let steps := amountSats / mintConfig.PricePerStep
    if steps < mintConfig.MinPurchaseSteps then
      .error (.insufficientPayment steps mintConfig.MinPurchaseSteps)
    else
      match cfg.Metric with
      | "milliseconds" => calculateAllotmentMs cfg steps mintConfig
      | _ => .error (.unsupportedMetric cfg.Metric)

/-- A nostr event as the core uses it: kind, author pubkey, creation time,
tags, content and signature (the wire encoding and the ID field belong to the
external protocol collaborator). -/
structure Event where
  kind : Nat
  pubkey : String
  createdAt : Int
  tags : List (List String)
  content : String
  sig : String
deriving Repr, DecidableEq

/-- A decoded cashu token; only its Mint() accessor is consumed by the core. -/
structure CashuToken where
  mint : String
deriving Repr, DecidableEq

/-- An owned identity from the identities store (private key only, as the
core reads it). -/
structure OwnedIdentity where
  PrivateKey : String
deriving Repr, DecidableEq

/-- A public identity from the identities store (payout address only). -/
structure PublicIdentity where
  LightningAddress : String
deriving Repr, DecidableEq

/-- Oracle for the external identities store. -/
structure Identities where
  getOwnedIdentity : String → Except String OwnedIdentity
  getPublicIdentity : String → Except String PublicIdentity

/-- Oracle bundle for the external collaborators of the merchant:
configuration identities (none models a nil GetIdentities result), key
derivation, event signing, cashu token decoding and wallet redemption. -/
structure MerchantWorld where
  identities : Option Identities
  getPublicKey : String → Except String String
  sign : String → Event → Except String String
  decodeToken : String → Except String CashuToken
  receive : CashuToken → Except String Nat

/-- Models Merchant.extractPaymentToken: the second element of the first tag
of length at least 2 whose first element is "payment". -/
def extractPaymentToken (paymentEvent : Event) : Except String String :=
  match paymentEvent.tags.find?
      (fun tag => decide (2 ≤ tag.length) && (tag.getD 0 "" == "payment")) with
  | some tag => .ok (tag.getD 1 "")
  | none => .error "no payment tag found in event"

/-- Models Merchant.extractDeviceIdentifier: the third element of the first
tag of length at least 3 whose first element is "device-identifier". -/
def extractDeviceIdentifier (paymentEvent : Event) : Except String String :=
  match paymentEvent.tags.find?
      (fun tag => decide (3 ≤ tag.length) && (tag.getD 0 "" == "device-identifier")) with
  | some tag => .ok (tag.getD 2 "")
  | none => .error "no device-identifier tag found in event"

/-- Modelled from the spec: `utils.ValidateMACAddress` is called by the
pipeline but the utils package is not part of the given sources. The spec
asks for hardware-address syntax validation, modelled here as six
colon-separated groups of two hex digits. -/
def ValidateMACAddress (s : String) : Bool :=
  let parts := valve.splitOnChar ':' s.toList
  parts.length == 6 &&
    parts.all (fun p => p.length == 2 && p.all (fun c => (valve.hexDigitVal c).isSome))

/-- Models Go strings.Contains: sub occurs as a contiguous substring of s. -/
def strContains (s sub : String) : Bool :=
  decide (sub.toList <:+: s.toList)

/-- Models Merchant.CreateNoticeEvent: resolve the merchant identity and its
public key, build a kind 21023 event with level and code tags (plus a p tag
when a customer pubkey is given) and sign it. -/
def CreateNoticeEvent (w : MerchantWorld) (now : Int)
    (level code message customerPubkey : String) : Except String Event :=
  match w.identities with
  | none => .error "identities config is nil"
  | some identities =>
    match identities.getOwnedIdentity "merchant" with
    | .error e => .error ("merchant identity not found: " ++ e)
    | .ok merchantIdentity =>
      match w.getPublicKey merchantIdentity.PrivateKey with
      | .error e => .error ("failed to get public key: " ++ e)
      | .ok tollgatePubkey =>
        let noticeEvent : Event :=
          { kind := 21023, pubkey := tollgatePubkey, createdAt := now,
            tags := [["level", level], ["code", code]] ++
              (if customerPubkey ≠ "" then [["p", customerPubkey]] else []),
            content := message, sig := "" }
        match w.sign merchantIdentity.PrivateKey noticeEvent with
        | .error e => .error ("failed to sign notice event: " ++ e)
        | .ok sig => .ok { noticeEvent with sig := sig }

/-- Models Merchant.createSessionEvent: a kind 1022 event carrying the
customer pubkey, device identifier, cumulative allotment, metric and session
start time, signed with the merchant key. -/
def createSessionEvent (w : MerchantWorld) (now : Int)
    (session : CustomerSession) (customerPubkey : String) : Except String Event :=
  match w.identities with
  | none => .error "identities config is nil"
  | some identities =>
    match identities.getOwnedIdentity "merchant" with
    | .error e => .error ("merchant identity not found: " ++ e)
    | .ok merchantIdentity =>
      match w.getPublicKey merchantIdentity.PrivateKey with
      | .error e => .error ("failed to get public key: " ++ e)
      | .ok tollgatePubkey =>
        let sessionEvent : Event :=
          { kind := 1022, pubkey := tollgatePubkey, createdAt := now,
            tags := [["p", customerPubkey],
                     ["device-identifier", "mac", session.MacAddress],
                     ["allotment", toString session.Allotment],
                     ["metric", session.Metric],
                     ["start-time", toString session.StartTime]],
            content := "", sig := "" }
        match w.sign merchantIdentity.PrivateKey sessionEvent with
        | .error e => .error ("failed to sign session event: " ++ e)
        | .ok sig => .ok { sessionEvent with sig := sig }

/-- The session expiry computation of PurchaseSession: for the milliseconds
metric, start time plus allotment / 1000 seconds (uint64 division, int64
conversion); for any other metric, 24 hours from now. -/
def sessionEndTimestamp (now : Int) (session : CustomerSession) : Int :=
  if session.Metric = "milliseconds" then
    session.StartTime + toInt64 (session.Allotment / 1000)
  else now + 24 * 60 * 60

/-- Result of PurchaseSession: the Go (event, error) pair as an Except, plus
the session store, gate store and external-command trace after the call. -/
structure PSResult where
  reply : Except String Event
  sessions : SessionStore
  gates : valve.GateStore
  trace : List valve.Cmd

/-- The notice-producing failure exit shared by every PurchaseSession stage:
returns the notice event when CreateNoticeEvent succeeds, otherwise the
combined error, leaving the given stores and trace as they stand. -/
def noticeReply (w : MerchantWorld) (now : Int) (code message payer failCtx : String)
    (sessions : SessionStore) (gates : valve.GateStore) (trace : List valve.Cmd) :
    PSResult :=
  match CreateNoticeEvent w now "error" code message payer with
  | .error noticeErr =>
    { reply := .error (failCtx ++ ": " ++ noticeErr),
      sessions := sessions, gates := gates, trace := trace }
  | .ok noticeEvent =>
    { reply := .ok noticeEvent, sessions := sessions, gates := gates, trace := trace }

/-- Models Merchant.PurchaseSession, the validation pipeline: extract the
payment token and device identifier, validate the MAC, decode and redeem the
token, compute the allotment, merge it into the session, compute the expiry,
classify the tier, open the gate, and sign a session reply; each failure
short-circuits into a notice reply.

The source line `tier := determineTier(amount)` references an identifier
`amount` that is not declared anywhere in the merchant package (the local
variable is `amountAfterSwap`), so the package does not compile; following
the adjacent comment and log statement ("Determine tier based on payment
amount", "for payment amount"), the tier is modelled as
`determineTier amountAfterSwap`. -/
def PurchaseSession (cfg : Config) (sessions : SessionStore) (vw : valve.World)
    (w : MerchantWorld) (gates : valve.GateStore) (now : Int)
    (paymentEvent : Event) : PSResult :=
  match extractPaymentToken paymentEvent with
  | .error err =>
    noticeReply w now "invalid-payment-token"
      ("Failed to extract payment token: " ++ err) paymentEvent.pubkey
      "failed to extract payment token and failed to create notice" sessions gates []
  | .ok paymentToken =>
  match extractDeviceIdentifier paymentEvent with
  | .error err =>
    noticeReply w now "invalid-device-identifier"
      ("Failed to extract device identifier: " ++ err) paymentEvent.pubkey
      "failed to extract device identifier and failed to create notice" sessions gates []
  | .ok deviceIdentifier =>
  if !ValidateMACAddress deviceIdentifier then
    noticeReply w now "invalid-mac-address"
      ("Invalid MAC address: " ++ deviceIdentifier) paymentEvent.pubkey
      "invalid MAC address and failed to create notice" sessions gates []
  else
  match w.decodeToken paymentToken with
  | .error err =>
    noticeReply w now "payment-error-invalid-token"
      ("Invalid cashu token: " ++ err) paymentEvent.pubkey
      "invalid cashu token and failed to create notice" sessions gates []
  | .ok paymentCashuToken =>
  match w.receive paymentCashuToken with
  | .error err =>
    let spent := strContains err "Token already spent"
    noticeReply w now
      (if spent then "payment-error-token-spent" else "payment-processing-failed")
      (if spent then "Token has already been spent"
        else "Payment processing failed: " ++ err)
      paymentEvent.pubkey
      "payment processing failed and failed to create notice" sessions gates []
  | .ok amountAfterSwap =>
  match calculateAllotment cfg amountAfterSwap paymentCashuToken.mint with
  | .error err =>
    noticeReply w now "allotment-calculation-failed"
      ("Failed to calculate allotment: " ++ err.render) paymentEvent.pubkey
      "failed to calculate allotment and failed to create notice" sessions gates []
  | .ok allotment =>
  let macAddress := deviceIdentifier
  let ares := AddAllotment sessions now macAddress "milliseconds" allotment
  match ares.2.2 with
  | some err =>
    noticeReply w now "session-management-failed"
      ("Failed to manage session: " ++ err) paymentEvent.pubkey
      "failed to manage session and failed to create notice" ares.1 gates []
  | none =>
  let session := ares.2.1
  let endTimestamp := sessionEndTimestamp now session
  let tier := determineTier amountAfterSwap
  let gres := valve.OpenGateUntil vw gates now macAddress endTimestamp tier
  match gres.2.2 with
  | some err =>
    noticeReply w now "gate-opening-failed"
      ("Failed to open gate for session: " ++ err) paymentEvent.pubkey
      "failed to open gate for session and failed to create notice" ares.1 gres.1 gres.2.1
  | none =>
    match createSessionEvent w now session paymentEvent.pubkey with
    | .error e =>
      { reply := .error ("failed to create session event: " ++ e),
        sessions := ares.1, gates := gres.1, trace := gres.2.1 }
    | .ok sessionEvent =>
      { reply := .ok sessionEvent, sessions := ares.1, gates := gres.1,
        trace := gres.2.1 }

/-- A lightning melt attempt issued to the wallet collaborator
(MeltToLightning arguments). -/
structure MeltCall where
  mint : String
  amount : Nat
  maxCost : Nat
  lightningAddress : String
deriving Repr, DecidableEq

/-- Models Go uint64(math.Round(f)) for a nonnegative float: round half away
from zero, i.e. the floor of q + 1/2 (theorems only apply it to nonnegative
arguments, where this matches math.Round; float64 rounding of huge values is
outside the model). -/
def goRoundToUint64 (q : ℚ) : Nat := (⌊q + 1 / 2⌋).toNat % 2 ^ 64

/-- Models Merchant.PayoutShare: the tolerance is the aimed amount plus its
configured percentage (uint64 arithmetic, truncating division), the melt max
cost is the aimed amount plus that tolerance, and the melt call is issued
with these values (a melt error is logged and abandoned for the tick). -/
def PayoutShare (mintConfig : MintConfig) (aimedPaymentAmount : Nat)
    (lightningAddress : String) : MeltCall :=
  let tolerancePaymentAmount :=
    u64Mod (aimedPaymentAmount +
      aimedPaymentAmount * mintConfig.BalanceTolerancePercent / 100)
  let maxCost := u64Mod (aimedPaymentAmount + tolerancePaymentAmount)
  { mint := mintConfig.URL, amount := aimedPaymentAmount, maxCost := maxCost,
    lightningAddress := lightningAddress }

/-- Models Merchant.processPayout for one tick: skip when the balance is below
MinPayoutAmount or the identities store is nil; otherwise aim for
balance - MinBalance (uint64 subtraction), and for each profit share round
the aimed amount times the factor, skip the share when its identity is
unresolved, and issue the melt via PayoutShare. Returns the melt calls
issued. -/
def processPayout (cfg : Config) (identities : Option Identities)
    (balance : Nat) (mintConfig : MintConfig) : List MeltCall :=
  if balance < mintConfig.MinPayoutAmount then []
  else
    let aimedPaymentAmount := u64Sub balance mintConfig.MinBalance
    match identities with
    | none => []
    | some identities =>
      cfg.ProfitShare.filterMap (fun profitShare =>
        let aimedAmount :=
          goRoundToUint64 ((aimedPaymentAmount : ℚ) * profitShare.Factor)
        match identities.getPublicIdentity profitShare.Identity with
        | .error _ => none
        | .ok profitShareIdentity =>
          some (PayoutShare mintConfig aimedAmount
            profitShareIdentity.LightningAddress))

/-- The oracle bundle can produce notices: the identities store resolves the
merchant identity, its public key derives, and signing succeeds. -/
def noticeOK (w : MerchantWorld) : Prop :=
  ∃ ids, w.identities = some ids ∧
    ∃ mi, ids.getOwnedIdentity "merchant" = .ok mi ∧
      (∃ pk, w.getPublicKey mi.PrivateKey = .ok pk) ∧
      (∀ ev, ∃ s, w.sign mi.PrivateKey ev = .ok s)

/-- The result carries a (signed, successfully created) notice reply: a kind
21023 event with severity tag level=error, the given stable error code, and a
p tag addressing the payer when one is known — and hence not a kind 1022
session reply. -/
def isNoticeReply (r : PSResult) (code payer : String) : Prop :=
  ∃ e, r.reply = .ok e ∧ e.kind = 21023 ∧ e.kind ≠ 1022 ∧
    ["level", "error"] ∈ e.tags ∧ ["code", code] ∈ e.tags ∧
    (payer ≠ "" → ["p", payer] ∈ e.tags)

end Merchant

section ExampleData

open Merchant valve

/-- Concrete mint configuration used in witnesses: price 10 sats per step,
minimum 1 step, tolerance 10 percent. -/
def mcEx : MintConfig :=
  { URL := "https://mint.example", PricePerStep := 10, MinPurchaseSteps := 1,
    MinBalance := 0, MinPayoutAmount := 10, BalanceTolerancePercent := 10,
    PriceUnit := "sat" }

/-- Concrete configuration used in witnesses: milliseconds metric with a one
hour step and a half-share payee. -/
def cfgEx : Config :=
  { AcceptedMints := [mcEx], Metric := "milliseconds", StepSize := 3600000,
    ProfitShare := [{ Factor := 1 / 2, Identity := "owner" }] }

/-- External world used in witnesses: every ndsctl call succeeds. -/
def wEx : valve.World := { authErr := fun _ => none, deauthErr := fun _ => none }

/-- Gate store used in witnesses and counterexamples: one live entry. -/
def gatesEx : valve.GateStore :=
  fun k => if k = "aa:bb:cc:dd:ee:02" then some 150 else none

/-- World used in the C8 counterexample: ndsctl deauth fails. -/
def wDeauthFailEx : valve.World :=
  { authErr := fun _ => none, deauthErr := fun _ => some "ndsctl deauth failed" }

/-- Identities oracle used in witnesses: a merchant key and one payee with a
resolvable lightning address. -/
def idsEx : Identities :=
  { getOwnedIdentity := fun name =>
      if name = "merchant" then .ok { PrivateKey := "merchant-sk" }
      else .error ("identity not found: " ++ name),
    getPublicIdentity := fun name =>
      if name = "owner" then .ok { LightningAddress := "owner@ln.example" }
      else .error ("identity not found: " ++ name) }

/-- Merchant oracle bundle used in witnesses: identities resolve, keys
derive, signing succeeds, one token decodes against the witness mint, and
redemption yields 25 sats. -/
def mwEx : MerchantWorld :=
  { identities := some idsEx,
    getPublicKey := fun sk => .ok ("pk-" ++ sk),
    sign := fun _ _ => .ok "sig-ok",
    decodeToken := fun t =>
      if t = "cashuAvalid" then .ok { mint := "https://mint.example" }
      else .error "invalid token",
    receive := fun _ => .ok 25 }

/-- A payment event with no payment tag (only a device identifier). -/
def evNoPaymentEx : Event :=
  { kind := 21000, pubkey := "payer-pk", createdAt := 999,
    tags := [["device-identifier", "mac", "aa:bb:cc:dd:ee:05"]],
    content := "", sig := "s" }

/-- Mint configuration for the C6 run: price 1 sat per step so a small
payment passes the minimum-purchase check while staying below the premium
threshold. -/
def mcC6 : MintConfig :=
  { URL := "https://mint.example", PricePerStep := 1, MinPurchaseSteps := 1,
    MinBalance := 0, MinPayoutAmount := 10, BalanceTolerancePercent := 10,
    PriceUnit := "sat" }

/-- Configuration for the C6 run. -/
def cfgC6 : Config :=
  { AcceptedMints := [mcC6], Metric := "milliseconds", StepSize := 3600000,
    ProfitShare := [] }

/-- Session store for the C6 run: the device already holds a cumulative
allotment of 36 billion milliseconds (10000 hours), far past the premium
threshold in value. -/
def storeC6 : SessionStore :=
  fun k =>
    if k = "aa:bb:cc:dd:ee:05" then
      some { MacAddress := "aa:bb:cc:dd:ee:05", StartTime := 500,
             Metric := "milliseconds", Allotment := 36000000000 }
    else none

/-- Merchant oracle bundle for the C6 run: redemption yields 5 sats. -/
def mwC6 : MerchantWorld :=
  { identities := some idsEx,
    getPublicKey := fun sk => .ok ("pk-" ++ sk),
    sign := fun _ _ => .ok "sig-ok",
    decodeToken := fun _ => .ok { mint := "https://mint.example" },
    receive := fun _ => .ok 5 }

/-- A well-formed payment event for the C6 run. -/
def evC6 : Event :=
  { kind := 21000, pubkey := "payer-pk", createdAt := 999,
    tags := [["payment", "cashuAtoken"],
             ["device-identifier", "mac", "aa:bb:cc:dd:ee:05"]],
    content := "", sig := "s" }

end ExampleData

section Theorems

open Merchant valve

/-- Helper: the error component of AddAllotment is always nil. -/
theorem addAllotment_err_none (store : SessionStore) (now : Int)
    (macAddress metric : String) (amount : Nat) :
    (AddAllotment store now macAddress metric amount).2.2 = none := by
  unfold AddAllotment
  cases store macAddress <;> simp

/-- Helper: when the oracle bundle can produce notices, CreateNoticeEvent
succeeds and the event carries kind 21023, the level and code tags, and the
p tag when a payer is given. -/
theorem createNoticeEvent_ok (w : MerchantWorld) (now : Int)
    (level code message payer : String) (hw : noticeOK w) :
    ∃ e, CreateNoticeEvent w now level code message payer = .ok e ∧
      e.kind = 21023 ∧ ["level", level] ∈ e.tags ∧ ["code", code] ∈ e.tags ∧
      (payer ≠ "" → ["p", payer] ∈ e.tags) := by
  obtain ⟨ids, hids, mi, hmi, ⟨pk, hpk⟩, hsign⟩ := hw
  obtain ⟨s, hs⟩ := hsign
    { kind := 21023, pubkey := pk, createdAt := now,
      tags := [["level", level], ["code", code]] ++
        (if payer ≠ "" then [["p", payer]] else []),
      content := message, sig := "" }
  unfold CreateNoticeEvent
  simp only [hids, hmi, hpk, hs]
  refine ⟨_, rfl, rfl, by simp, by simp, fun hpay => ?_⟩
  simp [hpay]

/-- Helper: any event returned by CreateNoticeEvent has kind 21023. -/
theorem createNoticeEvent_kind (w : MerchantWorld) (now : Int)
    (level code message payer : String) (e : Event)
    (h : CreateNoticeEvent w now level code message payer = .ok e) :
    e.kind = 21023 := by
  unfold CreateNoticeEvent at h
  cases hids : w.identities with
  | none =>
    simp only [hids] at h
    cases h
  | some ids =>
    simp only [hids] at h
    cases hmi : ids.getOwnedIdentity "merchant" with
    | error e1 =>
      simp only [hmi] at h
      cases h
    | ok mi =>
      simp only [hmi] at h
      cases hpk : w.getPublicKey mi.PrivateKey with
      | error e1 =>
        simp only [hpk] at h
        cases h
      | ok pk =>
        simp only [hpk] at h
        cases hs : w.sign mi.PrivateKey
            { kind := 21023, pubkey := pk, createdAt := now,
              tags := [["level", level], ["code", code]] ++
                (if payer ≠ "" then [["p", payer]] else []),
              content := message, sig := "" } with
        | error e1 =>
          simp only [hs] at h
          cases h
        | ok s =>
          simp only [hs] at h
          injection h with h2
          rw [← h2]

/-- Helper: any event returned by createSessionEvent has kind 1022. -/
theorem createSessionEvent_kind (w : MerchantWorld) (now : Int)
    (session : CustomerSession) (payer : String) (e : Event)
    (h : createSessionEvent w now session payer = .ok e) :
    e.kind = 1022 := by
  unfold createSessionEvent at h
  cases hids : w.identities with
  | none =>
    simp only [hids] at h
    cases h
  | some ids =>
    simp only [hids] at h
    cases hmi : ids.getOwnedIdentity "merchant" with
    | error e1 =>
      simp only [hmi] at h
      cases h
    | ok mi =>
      simp only [hmi] at h
      cases hpk : w.getPublicKey mi.PrivateKey with
      | error e1 =>
        simp only [hpk] at h
        cases h
      | ok pk =>
        simp only [hpk] at h
        cases hs : w.sign mi.PrivateKey
            { kind := 1022, pubkey := pk, createdAt := now,
              tags := [["p", payer],
                       ["device-identifier", "mac", session.MacAddress],
                       ["allotment", toString session.Allotment],
                       ["metric", session.Metric],
                       ["start-time", toString session.StartTime]],
              content := "", sig := "" } with
        | error e1 =>
          simp only [hs] at h
          cases h
        | ok s =>
          simp only [hs] at h
          injection h with h2
          rw [← h2]

/-- Helper: the notice-producing exit yields a notice reply whenever the
oracle bundle can produce notices. -/
theorem noticeReply_isNotice (w : MerchantWorld) (now : Int)
    (code message payer failCtx : String) (sessions : SessionStore)
    (gates : valve.GateStore) (trace : List valve.Cmd) (hw : noticeOK w) :
    isNoticeReply (noticeReply w now code message payer failCtx sessions gates trace)
      code payer := by
  obtain ⟨e, he, h1, h2, h3, h4⟩ := createNoticeEvent_ok w now "error" code message payer hw
  unfold noticeReply
  rw [he]
  exact ⟨e, rfl, h1, by rw [h1]; decide, h2, h3, h4⟩

/-- Helper: any successful reply out of the notice-producing exit has kind
21023 (so it is never a session reply). -/
theorem noticeReply_kind (w : MerchantWorld) (now : Int)
    (code message payer failCtx : String) (sessions : SessionStore)
    (gates : valve.GateStore) (trace : List valve.Cmd) (e : Event)
    (h : (noticeReply w now code message payer failCtx sessions gates trace).reply =
      .ok e) :
    e.kind = 21023 := by
  unfold noticeReply at h
  cases hn : CreateNoticeEvent w now "error" code message payer with
  | error e1 =>
    simp only [hn] at h
    cases h
  | ok n =>
    simp only [hn] at h
    injection h with h2
    exact h2 ▸ createNoticeEvent_kind w now "error" code message payer n hn

/-- C9: determineTier is a total side-effect-free function of the payment
amount: 0 maps to the free tier, any amount at or above the premium threshold
10 maps to premium, and any amount strictly between 0 and 10 maps to free;
in particular determineTier 0 = free, determineTier 9 = free,
determineTier 10 = premium. -/
theorem determineTier_spec (amount : Nat) :
    (amount = 0 → determineTier amount = "free") ∧
    (10 ≤ amount → determineTier amount = "premium") ∧
    (0 < amount → amount < 10 → determineTier amount = "free") ∧
    determineTier 0 = "free" ∧ determineTier 9 = "free" ∧
    determineTier 10 = "premium" := by
  refine ⟨fun h => by simp [determineTier, h], fun h => ?_, fun h1 h2 => ?_, rfl, rfl, rfl⟩
  · have : amount ≠ 0 := by omega
    simp [determineTier, this, h]
  · have h0 : amount ≠ 0 := by omega
    have h10 : ¬ 10 ≤ amount := by omega
    simp [determineTier, h0, h10]

/-- C9 witness: the three concrete classifications at the threshold 10. -/
theorem determineTier_spec_witness :
    determineTier 0 = "free" ∧ determineTier 9 = "free" ∧
    determineTier 10 = "premium" :=
  ⟨(determineTier_spec 0).1 rfl,
   (determineTier_spec 9).2.2.1 (by omega) (by omega),
   (determineTier_spec 10).2.1 (by omega)⟩

/-- C2: AddAllotment creates the session with start time now and allotment
equal to the paid amount when the MAC has no session, and otherwise adds the
amount to the allotment (uint64 wrap) and resets the start time to now with
no decay subtraction; in both cases the new store maps the MAC to that
session. -/
theorem addAllotment_spec (store : SessionStore) (now : Int)
    (macAddress metric : String) (amount : Nat) (hamount : amount < 2 ^ 64) :
    (store macAddress = none →
      (AddAllotment store now macAddress metric amount).2.1 =
        { MacAddress := macAddress, StartTime := now, Metric := metric,
          Allotment := amount }) ∧
    (∀ s, store macAddress = some s →
      (AddAllotment store now macAddress metric amount).2.1 =
        { s with Allotment := u64Mod (s.Allotment + amount), StartTime := now }) ∧
    (AddAllotment store now macAddress metric amount).1 macAddress =
      some (AddAllotment store now macAddress metric amount).2.1 := by
  refine ⟨fun h => ?_, fun s h => ?_, ?_⟩
  · simp [AddAllotment, h, u64Mod]
    omega
  · simp [AddAllotment, h]
  · unfold AddAllotment
    cases store macAddress <;> simp

/-- C2 witness: on an empty store, paying 100 milliseconds-metric units at
time 1000 creates a session with allotment 100 and start time 1000; a second
payment of 50 at time 1234 yields allotment 150 and start time reset to
1234. -/
theorem addAllotment_spec_witness :
    (AddAllotment (fun _ => none) 1000 "aa:bb:cc:dd:ee:0f" "milliseconds" 100).2.1 =
      { MacAddress := "aa:bb:cc:dd:ee:0f", StartTime := 1000,
        Metric := "milliseconds", Allotment := 100 } ∧
    (AddAllotment
        (AddAllotment (fun _ => none) 1000 "aa:bb:cc:dd:ee:0f" "milliseconds" 100).1
        1234 "aa:bb:cc:dd:ee:0f" "milliseconds" 50).2.1 =
      { MacAddress := "aa:bb:cc:dd:ee:0f", StartTime := 1234,
        Metric := "milliseconds", Allotment := 150 } := by
  constructor
  · exact (addAllotment_spec (fun _ => none) 1000 "aa:bb:cc:dd:ee:0f" "milliseconds"
      100 (by norm_num)).1 rfl
  · have h2 := (addAllotment_spec
      (AddAllotment (fun _ => none) 1000 "aa:bb:cc:dd:ee:0f" "milliseconds" 100).1
      1234 "aa:bb:cc:dd:ee:0f" "milliseconds" 50 (by norm_num)).2.1
      { MacAddress := "aa:bb:cc:dd:ee:0f", StartTime := 1000,
        Metric := "milliseconds", Allotment := 100 } rfl
    simpa [u64Mod] using h2

/-- C10: AddAllotment cannot fail: for every store, time, MAC address, metric
and amount it returns a nil error together with a session, and that session
is exactly what GetSession finds in the updated store for that MAC. -/
theorem addAllotment_total (store : SessionStore) (now : Int)
    (macAddress metric : String) (amount : Nat) :
    (AddAllotment store now macAddress metric amount).2.2 = none ∧
    GetSession (AddAllotment store now macAddress metric amount).1 macAddress =
      .ok (AddAllotment store now macAddress metric amount).2.1 := by
  unfold AddAllotment GetSession
  cases store macAddress <;> simp

/-- C3: allotment computation. Given the mint is configured (and its price
per step positive, since Go division by zero would panic):
steps = amountSats / PricePerStep with truncating division, the computation
fails with the insufficient-payment error exactly when steps is below
MinPurchaseSteps, the milliseconds metric yields steps * StepSize, and any
other metric fails with the unsupported-metric error. -/
theorem calculateAllotment_spec (cfg : Config) (amountSats : Nat)
    (mintURL : String) (mc : MintConfig)
    (hfind : findMint cfg.AcceptedMints mintURL = some mc)
    (_hp : 0 < mc.PricePerStep) :
    (calculateAllotment cfg amountSats mintURL =
        .error (.insufficientPayment (amountSats / mc.PricePerStep)
          mc.MinPurchaseSteps) ↔
      amountSats / mc.PricePerStep < mc.MinPurchaseSteps) ∧
    (cfg.Metric = "milliseconds" →
      mc.MinPurchaseSteps ≤ amountSats / mc.PricePerStep →
      calculateAllotment cfg amountSats mintURL =
        .ok (u64Mod (amountSats / mc.PricePerStep * cfg.StepSize))) ∧
    (cfg.Metric ≠ "milliseconds" →
      mc.MinPurchaseSteps ≤ amountSats / mc.PricePerStep →
      calculateAllotment cfg amountSats mintURL =
        .error (.unsupportedMetric cfg.Metric)) := by
  have hcalc : calculateAllotment cfg amountSats mintURL =
      (if amountSats / mc.PricePerStep < mc.MinPurchaseSteps then
        Except.error (CalcErr.insufficientPayment (amountSats / mc.PricePerStep)
          mc.MinPurchaseSteps)
      else
        match cfg.Metric with
        | "milliseconds" =>
          Except.ok (u64Mod (amountSats / mc.PricePerStep * cfg.StepSize))
        | _ => Except.error (CalcErr.unsupportedMetric cfg.Metric)) := by
    simp only [calculateAllotment]
    rw [hfind]
    rfl
  rw [hcalc]
  refine ⟨?_, fun hm hs => ?_, fun hm hs => ?_⟩
  · by_cases hlt : amountSats / mc.PricePerStep < mc.MinPurchaseSteps
    · simp [hlt]
    · simp only [if_neg hlt]
      constructor
      · intro h
        split at h <;> simp_all
      · intro h
        exact absurd h hlt
  · rw [if_neg (by omega), hm]
    rfl
  · rw [if_neg (by omega)]
    split
    · rename_i heq
      exact absurd heq hm
    · rfl

/-- C3 witness: amount 25 at price 10 per step with step size 3600000 buys 2
steps, hence 7200000 milliseconds; amount 5 fails with the
insufficient-payment error. -/
theorem calculateAllotment_spec_witness :
    calculateAllotment cfgEx 25 "https://mint.example" = .ok 7200000 ∧
    calculateAllotment cfgEx 5 "https://mint.example" =
      .error (.insufficientPayment 0 1) := by
  constructor
  · have h := (calculateAllotment_spec cfgEx 25 "https://mint.example" mcEx rfl
      (by norm_num [mcEx])).2.1 rfl (by norm_num [mcEx, cfgEx])
    simpa [u64Mod, cfgEx, mcEx] using h
  · have h := ((calculateAllotment_spec cfgEx 5 "https://mint.example" mcEx rfl
      (by norm_num [mcEx])).1).mpr (by norm_num [mcEx, cfgEx])
    simpa [mcEx, cfgEx] using h

/-- C4: a call with untilTimestamp at or before now fails with the
past-deadline error before any effect: the gate store is unchanged (no entry
created or modified, no timer installed) and no external command is issued. -/
theorem openGateUntil_pastDeadline (w : valve.World) (gates : valve.GateStore)
    (now untilTimestamp : Int) (macAddress tier : String)
    (h : untilTimestamp ≤ now) :
    (OpenGateUntil w gates now macAddress untilTimestamp tier).1 = gates ∧
    (OpenGateUntil w gates now macAddress untilTimestamp tier).2.1 = [] ∧
    (OpenGateUntil w gates now macAddress untilTimestamp tier).2.2 =
      some ("timestamp " ++ toString untilTimestamp ++
        " is in the past (current time: " ++ toString now ++ ")") := by
  have hd : untilTimestamp - now ≤ 0 := by omega
  unfold OpenGateUntil
  simp [hd]

/-- C4 witness: at time 100, authorizing until 99 fails with the past-deadline
error, leaves the (empty) store untouched and issues no command. -/
theorem openGateUntil_pastDeadline_witness :
    (OpenGateUntil wEx (fun _ => none) 100 "aa:bb:cc:dd:ee:0f" 99 "free").1 =
      (fun _ => none) ∧
    (OpenGateUntil wEx (fun _ => none) 100 "aa:bb:cc:dd:ee:0f" 99 "free").2.1 = [] ∧
    (OpenGateUntil wEx (fun _ => none) 100 "aa:bb:cc:dd:ee:0f" 99 "free").2.2 =
      some "timestamp 99 is in the past (current time: 100)" := by
  have h := openGateUntil_pastDeadline wEx (fun _ => none) 100 99
    "aa:bb:cc:dd:ee:0f" "free" (by omega)
  exact ⟨h.1, h.2.1, h.2.2.trans rfl⟩

/-- C1 counterexample: with a live entry for the device, an extension call
succeeds but issues no command at all — in particular no tc command — even
though the free tier has the nonzero ceiling 2048, so the bandwidth limit is
not applied in the existing-entry case. -/
theorem openGateUntil_extension_counterexample :
    (OpenGateUntil wEx gatesEx 100 "aa:bb:cc:dd:ee:02" 200 "free").2.2 = none ∧
    bandwidthLimits "free" = some 2048 ∧
    (OpenGateUntil wEx gatesEx 100 "aa:bb:cc:dd:ee:02" 200 "free").2.1 = [] ∧
    ∀ c ∈ (OpenGateUntil wEx gatesEx 100 "aa:bb:cc:dd:ee:02" 200 "free").2.1,
      c.isTc = false := by
  have ht : (OpenGateUntil wEx gatesEx 100 "aa:bb:cc:dd:ee:02" 200 "free").2.1 = [] := rfl
  refine ⟨rfl, rfl, ht, ?_⟩
  intro c hc
  rw [ht] at hc
  cases hc

/-- C1 amended: the bandwidth limit for the tier is applied only in the
no-existing-entry case, as part of the authorization: there, on ndsctl
success, the trace is the auth command followed by the setBandwidthLimit
commands — removal commands when the ceiling is 0, a tc class keyed by the
class identifier derived from the device identifier plus a matching filter
otherwise; in the existing-entry (extension) case no command is issued at
all. -/
theorem openGateUntil_bandwidth (w : valve.World) (gates : valve.GateStore)
    (now untilTimestamp : Int) (macAddress tier : String)
    (hdur : now < untilTimestamp) :
    (∀ t, gates macAddress = some t →
      (OpenGateUntil w gates now macAddress untilTimestamp tier).2.1 = []) ∧
    (gates macAddress = none → w.authErr macAddress = none →
      (OpenGateUntil w gates now macAddress untilTimestamp tier).2.1 =
        .ndsctlAuth macAddress :: (setBandwidthLimit macAddress tier).1) ∧
    (bandwidthLimits tier = some 0 →
      (setBandwidthLimit macAddress tier).1 =
        [.tcFilterDel macAddress (getClassID macAddress),
         .tcClassDel (getClassID macAddress)]) ∧
    (∀ limit, bandwidthLimits tier = some limit → limit ≠ 0 →
      (setBandwidthLimit macAddress tier).1 =
        [.tcClassAdd (getClassID macAddress) limit,
         .tcFilterAdd macAddress (getClassID macAddress)]) := by
  have hd : ¬ untilTimestamp - now ≤ 0 := by omega
  refine ⟨fun t h => ?_, fun h hw => ?_, fun h => ?_, fun limit h hne => ?_⟩
  · simp [OpenGateUntil, hd, h]
  · simp [OpenGateUntil, hd, h, authorizeMAC, hw]
  · simp [setBandwidthLimit, h, removeBandwidthLimit]
  · simp [setBandwidthLimit, h, hne]

/-- C1 amended witness: a fresh free-tier device is authorized and the 2048
kbps class plus its filter are installed, keyed by class id 5 derived from
the MAC. -/
theorem openGateUntil_bandwidth_witness :
    (OpenGateUntil wEx (fun _ => none) 100 "aa:bb:cc:dd:ee:05" 200 "free").2.1 =
      [.ndsctlAuth "aa:bb:cc:dd:ee:05", .tcClassAdd "5" 2048,
       .tcFilterAdd "aa:bb:cc:dd:ee:05" "5"] := by
  have h := openGateUntil_bandwidth wEx (fun _ => none) 100 200
    "aa:bb:cc:dd:ee:05" "free" (by omega)
  rw [h.2.1 rfl rfl, h.2.2.2 2048 rfl (by omega)]
  rfl

/-- C8 counterexample: when the timer fires and ndsctl deauth fails, the
callback issues only the deauth command — no bandwidth-limit removal (no tc
command) is issued — although the gate entry is still removed. -/
theorem gateTimerFired_counterexample :
    (gateTimerFired wDeauthFailEx gatesEx "aa:bb:cc:dd:ee:02").2.1 =
      [.ndsctlDeauth "aa:bb:cc:dd:ee:02"] ∧
    (∀ c ∈ (gateTimerFired wDeauthFailEx gatesEx "aa:bb:cc:dd:ee:02").2.1,
      c.isTc = false) ∧
    (gateTimerFired wDeauthFailEx gatesEx "aa:bb:cc:dd:ee:02").1
      "aa:bb:cc:dd:ee:02" = none := by
  have ht : (gateTimerFired wDeauthFailEx gatesEx "aa:bb:cc:dd:ee:02").2.1 =
      [.ndsctlDeauth "aa:bb:cc:dd:ee:02"] := rfl
  refine ⟨ht, ?_, rfl⟩
  intro c hc
  rw [ht] at hc
  simp only [List.mem_singleton] at hc
  subst hc
  rfl

/-- C8 amended: on every firing the callback issues the external
deauthorization first and removes the gate entry for the device (leaving
other entries alone); the bandwidth-limit removal commands are issued exactly
when ndsctl deauth succeeds — when it fails, the callback skips the removal
(the error is only logged). -/
theorem gateTimerFired_spec (w : valve.World) (gates : valve.GateStore)
    (macAddress : String) :
    (gateTimerFired w gates macAddress).2.1.head? =
      some (.ndsctlDeauth macAddress) ∧
    (gateTimerFired w gates macAddress).1 macAddress = none ∧
    (∀ k, k ≠ macAddress → (gateTimerFired w gates macAddress).1 k = gates k) ∧
    (w.deauthErr macAddress = none →
      (gateTimerFired w gates macAddress).2.1 =
        [.ndsctlDeauth macAddress,
         .tcFilterDel macAddress (getClassID macAddress),
         .tcClassDel (getClassID macAddress)]) ∧
    (∀ e, w.deauthErr macAddress = some e →
      (gateTimerFired w gates macAddress).2.1 = [.ndsctlDeauth macAddress]) := by
  unfold gateTimerFired deauthorizeMAC removeBandwidthLimit
  cases h : w.deauthErr macAddress with
  | none =>
    refine ⟨by simp, by simp, fun k hk => by simp [hk], fun _ => by simp,
      fun e he => ?_⟩
    cases he
  | some val =>
    refine ⟨by simp, by simp, fun k hk => by simp [hk], fun hn => ?_,
      fun e he => by simp⟩
    cases hn

/-- C8 amended witness: with a succeeding ndsctl, firing the timer for the
live entry issues deauth then the two tc removal commands and deletes the
entry. -/
theorem gateTimerFired_spec_witness :
    (gateTimerFired wEx gatesEx "aa:bb:cc:dd:ee:02").2.1 =
      [.ndsctlDeauth "aa:bb:cc:dd:ee:02",
       .tcFilterDel "aa:bb:cc:dd:ee:02" "2", .tcClassDel "2"] ∧
    (gateTimerFired wEx gatesEx "aa:bb:cc:dd:ee:02").1 "aa:bb:cc:dd:ee:02" =
      none := by
  have h := gateTimerFired_spec wEx gatesEx "aa:bb:cc:dd:ee:02"
  refine ⟨?_, h.2.1⟩
  rw [h.2.2.2.1 rfl]
  rfl

/-- C7 counterexample: with balance 100, minBalance 0 (so aimed = 100), a
half-share payee and tolerance 10 percent, the melt is attempted with amount
50 and maximum spend ceiling 105 = 50 + (50 + 50 * 10 / 100), not the
claimed aimed-based ceiling 210 = 100 + (100 + 100 * 10 / 100). -/
theorem processPayout_ceiling_counterexample :
    processPayout cfgEx (some idsEx) 100 mcEx =
      [{ mint := "https://mint.example", amount := 50, maxCost := 105,
         lightningAddress := "owner@ln.example" }] ∧
    u64Sub 100 mcEx.MinBalance = 100 ∧
    100 + (100 + 100 * mcEx.BalanceTolerancePercent / 100) = 210 ∧
    (105 : Nat) ≠ 210 := by
  have hround : goRoundToUint64 (((100 : Nat) : ℚ) * (1 / 2)) = 50 := by
    unfold goRoundToUint64
    norm_num
    decide
  refine ⟨?_, by norm_num [u64Sub, mcEx], by norm_num [mcEx], by norm_num⟩
  unfold processPayout
  rw [if_neg (by norm_num [mcEx])]
  have hsub : u64Sub 100 mcEx.MinBalance = 100 := by norm_num [u64Sub, mcEx]
  show List.filterMap _ cfgEx.ProfitShare = _
  rw [show cfgEx.ProfitShare = [⟨1 / 2, "owner"⟩] from rfl]
  rw [List.filterMap_cons, List.filterMap_nil]
  simp only [hsub, hround]
  rw [show idsEx.getPublicIdentity "owner" =
    .ok { LightningAddress := "owner@ln.example" } from rfl]
  simp only [PayoutShare, u64Mod]
  norm_num [mcEx]

/-- C7 amended: each tick with sufficient balance computes
aimed = balance - minBalance; every profit-share entry whose payee address
resolves has its melt attempted with amount = round(aimed * shareFactor),
entries with unresolved payees are skipped without affecting the others, and
every attempted melt carries a maximum spend ceiling equal to
shareAmount + (shareAmount + shareAmount * tolerancePercent / 100) — the
ceiling counts the share amount (not the tick-level aimed amount) twice
before adding the tolerance. -/
theorem processPayout_spec (cfg : Config) (ids : Identities) (balance : Nat)
    (mc : MintConfig) (hbal : ¬ balance < mc.MinPayoutAmount)
    (hmb : mc.MinBalance ≤ balance) (hb : balance < 2 ^ 64) :
    u64Sub balance mc.MinBalance = balance - mc.MinBalance ∧
    (∀ ps ∈ cfg.ProfitShare, ∀ pid,
      ids.getPublicIdentity ps.Identity = .ok pid →
      PayoutShare mc
        (goRoundToUint64 (((balance - mc.MinBalance : Nat) : ℚ) * ps.Factor))
        pid.LightningAddress ∈ processPayout cfg (some ids) balance mc) ∧
    (∀ call ∈ processPayout cfg (some ids) balance mc,
      ∃ ps ∈ cfg.ProfitShare, ∃ pid,
        ids.getPublicIdentity ps.Identity = .ok pid ∧
        call.mint = mc.URL ∧ call.lightningAddress = pid.LightningAddress ∧
        call.amount =
          goRoundToUint64 (((balance - mc.MinBalance : Nat) : ℚ) * ps.Factor) ∧
        call.maxCost = u64Mod (call.amount +
          u64Mod (call.amount +
            call.amount * mc.BalanceTolerancePercent / 100))) := by
  have haimed : u64Sub balance mc.MinBalance = balance - mc.MinBalance := by
    unfold u64Sub
    omega
  have hpp : processPayout cfg (some ids) balance mc =
      cfg.ProfitShare.filterMap (fun profitShare =>
        match ids.getPublicIdentity profitShare.Identity with
        | .error _ => none
        | .ok profitShareIdentity =>
          some (PayoutShare mc
            (goRoundToUint64
              (((balance - mc.MinBalance : Nat) : ℚ) * profitShare.Factor))
            profitShareIdentity.LightningAddress)) := by
    unfold processPayout
    rw [if_neg hbal]
    simp only [haimed]
  refine ⟨haimed, fun ps hps pid hpid => ?_, fun call hcall => ?_⟩
  · rw [hpp]
    exact List.mem_filterMap.mpr ⟨ps, hps, by rw [hpid]⟩
  · rw [hpp] at hcall
    obtain ⟨ps, hps, heq⟩ := List.mem_filterMap.mp hcall
    cases hpid : ids.getPublicIdentity ps.Identity with
    | error e =>
      rw [hpid] at heq
      cases heq
    | ok pid =>
      rw [hpid] at heq
      refine ⟨ps, hps, pid, hpid, ?_⟩
      obtain rfl : PayoutShare mc
          (goRoundToUint64 (((balance - mc.MinBalance : Nat) : ℚ) * ps.Factor))
          pid.LightningAddress = call := by
        injection heq
      exact ⟨rfl, rfl, rfl, rfl⟩

/-- C7 amended witness: with balance 100 against the witness configuration,
the half-share payee resolves and its melt call with amount 50 and ceiling
105 is among the calls of the tick. -/
theorem processPayout_spec_witness :
    { mint := "https://mint.example", amount := 50, maxCost := 105,
      lightningAddress := "owner@ln.example" : MeltCall } ∈
      processPayout cfgEx (some idsEx) 100 mcEx ∧
    u64Sub 100 mcEx.MinBalance = 100 - mcEx.MinBalance := by
  have h := processPayout_spec cfgEx idsEx 100 mcEx (by norm_num [mcEx])
    (by norm_num [mcEx]) (by norm_num)
  refine ⟨?_, h.1⟩
  have h2 := h.2.1 ⟨1 / 2, "owner"⟩ (by simp [cfgEx]) ⟨"owner@ln.example"⟩
    (by simp [idsEx])
  have hround : goRoundToUint64 (((100 - mcEx.MinBalance : Nat) : ℚ) * (1 / 2)) = 50 := by
    unfold goRoundToUint64
    norm_num [mcEx]
    decide
  have hval : PayoutShare mcEx
      (goRoundToUint64 (((100 - mcEx.MinBalance : Nat) : ℚ) * (1 / 2)))
      "owner@ln.example" =
      { mint := "https://mint.example", amount := 50, maxCost := 105,
        lightningAddress := "owner@ln.example" : MeltCall } := by
    rw [hround]
    simp only [PayoutShare, u64Mod]
    norm_num [mcEx]
  rwa [hval] at h2

/-- C5: PurchaseSession is a strict short-circuiting pipeline. Provided the
signing oracle can produce notices, every stage failure — missing payment
token, missing device identifier, invalid MAC syntax, malformed token,
redemption failure (with the token-spent code distinguished), allotment
failure, gate failure — yields a signed notice reply with severity level
error, the stable code of that stage, and a p tag addressing the payer; and
a session (kind 1022) reply is only ever produced when every stage
succeeded. -/
theorem purchaseSession_failure_notices (cfg : Config) (sessions : SessionStore)
    (vw : valve.World) (w : MerchantWorld) (gates : valve.GateStore) (now : Int)
    (ev : Event) (hw : noticeOK w) :
    (∀ e1, extractPaymentToken ev = .error e1 →
      isNoticeReply (PurchaseSession cfg sessions vw w gates now ev)
        "invalid-payment-token" ev.pubkey) ∧
    (∀ tok e1, extractPaymentToken ev = .ok tok →
      extractDeviceIdentifier ev = .error e1 →
      isNoticeReply (PurchaseSession cfg sessions vw w gates now ev)
        "invalid-device-identifier" ev.pubkey) ∧
    (∀ tok dev, extractPaymentToken ev = .ok tok →
      extractDeviceIdentifier ev = .ok dev → ValidateMACAddress dev = false →
      isNoticeReply (PurchaseSession cfg sessions vw w gates now ev)
        "invalid-mac-address" ev.pubkey) ∧
    (∀ tok dev e1, extractPaymentToken ev = .ok tok →
      extractDeviceIdentifier ev = .ok dev → ValidateMACAddress dev = true →
      w.decodeToken tok = .error e1 →
      isNoticeReply (PurchaseSession cfg sessions vw w gates now ev)
        "payment-error-invalid-token" ev.pubkey) ∧
    (∀ tok dev ct e1, extractPaymentToken ev = .ok tok →
      extractDeviceIdentifier ev = .ok dev → ValidateMACAddress dev = true →
      w.decodeToken tok = .ok ct → w.receive ct = .error e1 →
      isNoticeReply (PurchaseSession cfg sessions vw w gates now ev)
        (if strContains e1 "Token already spent" then "payment-error-token-spent"
          else "payment-processing-failed") ev.pubkey) ∧
    (∀ tok dev ct amt ce, extractPaymentToken ev = .ok tok →
      extractDeviceIdentifier ev = .ok dev → ValidateMACAddress dev = true →
      w.decodeToken tok = .ok ct → w.receive ct = .ok amt →
      calculateAllotment cfg amt ct.mint = .error ce →
      isNoticeReply (PurchaseSession cfg sessions vw w gates now ev)
        "allotment-calculation-failed" ev.pubkey) ∧
    (∀ tok dev ct amt a ge, extractPaymentToken ev = .ok tok →
      extractDeviceIdentifier ev = .ok dev → ValidateMACAddress dev = true →
      w.decodeToken tok = .ok ct → w.receive ct = .ok amt →
      calculateAllotment cfg amt ct.mint = .ok a →
      (valve.OpenGateUntil vw gates now dev
        (sessionEndTimestamp now
          (AddAllotment sessions now dev "milliseconds" a).2.1)
        (determineTier amt)).2.2 = some ge →
      isNoticeReply (PurchaseSession cfg sessions vw w gates now ev)
        "gate-opening-failed" ev.pubkey) ∧
    (∀ e, (PurchaseSession cfg sessions vw w gates now ev).reply = .ok e →
      e.kind = 1022 →
      ∃ tok dev ct amt a, extractPaymentToken ev = .ok tok ∧
        extractDeviceIdentifier ev = .ok dev ∧ ValidateMACAddress dev = true ∧
        w.decodeToken tok = .ok ct ∧ w.receive ct = .ok amt ∧
        calculateAllotment cfg amt ct.mint = .ok a ∧
        (valve.OpenGateUntil vw gates now dev
          (sessionEndTimestamp now
            (AddAllotment sessions now dev "milliseconds" a).2.1)
          (determineTier amt)).2.2 = none) := by
  refine ⟨fun e1 h1 => ?_, fun tok e1 h1 h2 => ?_, fun tok dev h1 h2 h3 => ?_,
    fun tok dev e1 h1 h2 h3 h4 => ?_, fun tok dev ct e1 h1 h2 h3 h4 h5 => ?_,
    fun tok dev ct amt ce h1 h2 h3 h4 h5 h6 => ?_,
    fun tok dev ct amt a ge h1 h2 h3 h4 h5 h6 h7 => ?_,
    fun e hrep hkind => ?_⟩
  · unfold PurchaseSession
    simp only [h1]
    exact noticeReply_isNotice w now _ _ _ _ sessions gates [] hw
  · unfold PurchaseSession
    simp only [h1, h2]
    exact noticeReply_isNotice w now _ _ _ _ sessions gates [] hw
  · unfold PurchaseSession
    simp only [h1, h2]
    rw [if_pos (by rw [h3]; rfl)]
    exact noticeReply_isNotice w now _ _ _ _ sessions gates [] hw
  · unfold PurchaseSession
    simp only [h1, h2]
    rw [if_neg (by rw [h3]; simp)]
    simp only [h4]
    exact noticeReply_isNotice w now _ _ _ _ sessions gates [] hw
  · unfold PurchaseSession
    simp only [h1, h2]
    rw [if_neg (by rw [h3]; simp)]
    simp only [h4, h5]
    exact noticeReply_isNotice w now _ _ _ _ sessions gates [] hw
  · unfold PurchaseSession
    simp only [h1, h2]
    rw [if_neg (by rw [h3]; simp)]
    simp only [h4, h5, h6]
    exact noticeReply_isNotice w now _ _ _ _ sessions gates [] hw
  · unfold PurchaseSession
    simp only [h1, h2]
    rw [if_neg (by rw [h3]; simp)]
    simp only [h4, h5, h6, addAllotment_err_none, h7]
    exact noticeReply_isNotice w now _ _ _ _ _ _ _ hw
  · unfold PurchaseSession at hrep
    cases h1 : extractPaymentToken ev with
    | error e1 =>
      simp only [h1] at hrep
      have hk := noticeReply_kind w now _ _ _ _ sessions gates [] e hrep
      rw [hkind] at hk
      cases hk
    | ok tok =>
    simp only [h1] at hrep
    cases h2 : extractDeviceIdentifier ev with
    | error e1 =>
      simp only [h2] at hrep
      have hk := noticeReply_kind w now _ _ _ _ sessions gates [] e hrep
      rw [hkind] at hk
      cases hk
    | ok dev =>
    simp only [h2] at hrep
    cases h3 : ValidateMACAddress dev with
    | false =>
      rw [if_pos (by rw [h3]; rfl)] at hrep
      have hk := noticeReply_kind w now _ _ _ _ sessions gates [] e hrep
      rw [hkind] at hk
      cases hk
    | true =>
    rw [if_neg (by rw [h3]; simp)] at hrep
    cases h4 : w.decodeToken tok with
    | error e1 =>
      simp only [h4] at hrep
      have hk := noticeReply_kind w now _ _ _ _ sessions gates [] e hrep
      rw [hkind] at hk
      cases hk
    | ok ct =>
    simp only [h4] at hrep
    cases h5 : w.receive ct with
    | error e1 =>
      simp only [h5] at hrep
      have hk := noticeReply_kind w now _ _ _ _ sessions gates [] e hrep
      rw [hkind] at hk
      cases hk
    | ok amt =>
    simp only [h5] at hrep
    cases h6 : calculateAllotment cfg amt ct.mint with
    | error ce =>
      simp only [h6] at hrep
      have hk := noticeReply_kind w now _ _ _ _ sessions gates [] e hrep
      rw [hkind] at hk
      cases hk
    | ok a =>
    simp only [h6, addAllotment_err_none] at hrep
    cases h7 : (valve.OpenGateUntil vw gates now dev
        (sessionEndTimestamp now
          (AddAllotment sessions now dev "milliseconds" a).2.1)
        (determineTier amt)).2.2 with
    | some ge =>
      simp only [h7] at hrep
      have hk := noticeReply_kind w now _ _ _ _ _ _ _ e hrep
      rw [hkind] at hk
      cases hk
    | none =>
    simp only [h7] at hrep
    cases hse : createSessionEvent w now
        (AddAllotment sessions now dev "milliseconds" a).2.1 ev.pubkey with
    | error e1 =>
      simp only [hse] at hrep
      cases hrep
    | ok se =>
      exact ⟨tok, dev, ct, amt, a, rfl, rfl, h3, h4, h5, h6, h7⟩

/-- C5 witness: a payment event with no payment tag produces a signed notice
reply with code invalid-payment-token addressed to the payer. -/
theorem purchaseSession_failure_notices_witness :
    isNoticeReply
      (PurchaseSession cfgEx (fun _ => none) wEx mwEx (fun _ => none) 1000
        evNoPaymentEx)
      "invalid-payment-token" "payer-pk" := by
  have hw : noticeOK mwEx :=
    ⟨idsEx, rfl, { PrivateKey := "merchant-sk" }, rfl, ⟨"pk-merchant-sk", rfl⟩,
      fun ev => ⟨"sig-ok", rfl⟩⟩
  exact (purchaseSession_failure_notices cfgEx (fun _ => none) wEx mwEx
    (fun _ => none) 1000 evNoPaymentEx hw).1 "no payment tag found in event" rfl

/-- C6: in the modelled pipeline — where the non-compiling source line
`tier := determineTier(amount)` is read as the current payment amount
`amountAfterSwap`, per its comment and log statement — the tier is classified
from this payment alone: a 5 sat top-up onto a session whose cumulative
allotment is premium-sized still installs the free-tier 2048 kbps limit,
because determineTier sees 5, not the cumulative 36000000000. -/
theorem purchaseSession_tier_from_payment :
    (PurchaseSession cfgC6 storeC6 wEx mwC6 (fun _ => none) 1000 evC6).trace =
      [.ndsctlAuth "aa:bb:cc:dd:ee:05", .tcClassAdd "5" 2048,
       .tcFilterAdd "aa:bb:cc:dd:ee:05" "5"] ∧
    determineTier 5 = "free" ∧
    determineTier 36000000000 = "premium" ∧
    storeC6 "aa:bb:cc:dd:ee:05" =
      some { MacAddress := "aa:bb:cc:dd:ee:05", StartTime := 500,
             Metric := "milliseconds", Allotment := 36000000000 } := by
  exact ⟨rfl, rfl, rfl, rfl⟩

end Theorems

end Tollgate
